import Mathlib

/-!
Verification of the rookie fantasy-football prediction service.

The repository has two Python modules:
  * `app.py` — a FastAPI service serving single and batch predictions from a
    model artifact loaded once at process start;
  * `train_model.py` — an offline training script that prepares the data,
    builds a scikit-learn pipeline and saves the fitted artifact.

This file shallowly embeds both modules.  Machine floats are embedded as
rationals (`ℚ`); a loaded model artifact is an abstract function from the
named single-row feature table to a rational; HTTP error responses raised
via `HTTPException` are embedded with `Except`.
-/

set_option autoImplicit false

namespace App

/-- `MODEL_PATH = "models/model.joblib"` from `app.py`. -/
def MODEL_PATH : String := "models/model.joblib"

/-- `CATEGORICAL_COLS` from `app.py` (lines 18): the categorical feature
columns, in the order the model expects. -/
def CATEGORICAL_COLS : List String := ["position", "team", "C_conference", "C_team"]

/-- `NUMERIC_COLS` from `app.py` (lines 19-26): the numeric feature columns. -/
def NUMERIC_COLS : List String :=
  ["C_season", "C_passing_TD", "C_passing_YDS", "C_passing_INT",
   "C_rushing_TD", "C_rushing_YDS", "C_receiving_REC", "C_receiving_TD",
   "C_receiving_YDS", "C_fumbles_LOST", "C_passing_ATT", "C_passing_COMPLETIONS",
   "C_passing_PCT", "C_passing_YPA", "C_rushing_CAR", "C_rushing_YPC",
   "C_rushing_LONG", "C_receiving_YPR", "C_receiving_LONG", "C_fumbles_FUM",
   "C_conference_strength"]

/-- `ALL_FEATURE_COLS = CATEGORICAL_COLS + NUMERIC_COLS` from `app.py` line 27. -/
def ALL_FEATURE_COLS : List String := CATEGORICAL_COLS ++ NUMERIC_COLS

/-- A Python attribute value of a `RookieInput` instance: either a string
(categorical / identity field) or a number (float field, embedded as `ℚ`). -/
inductive FieldVal where
  | s : String → FieldVal
  | n : ℚ → FieldVal
deriving DecidableEq

/-- The pydantic `RookieInput` schema from `app.py` (lines 32-59): the input
record for a single rookie prediction.  Fields appear in declaration order;
floats are embedded as `ℚ`. -/
structure RookieInput where
  player_name : String
  position : String
  team : String
  C_conference : String
  C_team : String
  C_season : ℚ
  C_passing_TD : ℚ
  C_passing_YDS : ℚ
  C_passing_INT : ℚ
  C_rushing_TD : ℚ
  C_rushing_YDS : ℚ
  C_receiving_REC : ℚ
  C_receiving_TD : ℚ
  C_receiving_YDS : ℚ
  C_fumbles_LOST : ℚ
  C_passing_ATT : ℚ
  C_passing_COMPLETIONS : ℚ
  C_passing_PCT : ℚ
  C_passing_YPA : ℚ
  C_rushing_CAR : ℚ
  C_rushing_YPC : ℚ
  C_rushing_LONG : ℚ
  C_receiving_YPR : ℚ
  C_receiving_LONG : ℚ
  C_fumbles_FUM : ℚ
  C_conference_strength : ℚ
deriving DecidableEq

/-- Python `getattr(rookie, col)` for the attribute names of `RookieInput`;
`none` for a name that is not an attribute. -/
def getattr (r : RookieInput) (col : String) : Option FieldVal :=
  match col with
  | "player_name" => some (.s r.player_name)
  | "position" => some (.s r.position)
  | "team" => some (.s r.team)
  | "C_conference" => some (.s r.C_conference)
  | "C_team" => some (.s r.C_team)
  | "C_season" => some (.n r.C_season)
  | "C_passing_TD" => some (.n r.C_passing_TD)
  | "C_passing_YDS" => some (.n r.C_passing_YDS)
  | "C_passing_INT" => some (.n r.C_passing_INT)
  | "C_rushing_TD" => some (.n r.C_rushing_TD)
  | "C_rushing_YDS" => some (.n r.C_rushing_YDS)
  | "C_receiving_REC" => some (.n r.C_receiving_REC)
  | "C_receiving_TD" => some (.n r.C_receiving_TD)
  | "C_receiving_YDS" => some (.n r.C_receiving_YDS)
  | "C_fumbles_LOST" => some (.n r.C_fumbles_LOST)
  | "C_passing_ATT" => some (.n r.C_passing_ATT)
  | "C_passing_COMPLETIONS" => some (.n r.C_passing_COMPLETIONS)
  | "C_passing_PCT" => some (.n r.C_passing_PCT)
  | "C_passing_YPA" => some (.n r.C_passing_YPA)
  | "C_rushing_CAR" => some (.n r.C_rushing_CAR)
  | "C_rushing_YPC" => some (.n r.C_rushing_YPC)
  | "C_rushing_LONG" => some (.n r.C_rushing_LONG)
  | "C_receiving_YPR" => some (.n r.C_receiving_YPR)
  | "C_receiving_LONG" => some (.n r.C_receiving_LONG)
  | "C_fumbles_FUM" => some (.n r.C_fumbles_FUM)
  | "C_conference_strength" => some (.n r.C_conference_strength)
  | _ => none

/-- The single-row feature table built in `_predict_single` (`app.py` lines
122-123): `row = \x7bcol: getattr(rookie, col) for col in ALL_FEATURE_COLS\x7d`,
then `pd.DataFrame([row])` — a named row whose columns are exactly
`ALL_FEATURE_COLS`, in that order. -/
def rookieRow (r : RookieInput) : List (String × FieldVal) :=
  ALL_FEATURE_COLS.filterMap (fun col => (getattr r col).map (fun v => (col, v)))

/-- A loaded model artifact, as the serving layer uses it: an opaque
`predict` function over the named single-row feature table
(`model.predict(df)[0]`, `app.py` line 124). -/
def Model : Type := List (String × FieldVal) → ℚ

/-- `PredictionOutput` pydantic schema from `app.py` (lines 93-96). -/
structure PredictionOutput where
  player_name : String
  position : String
  predicted_fantasy_points : ℚ
deriving DecidableEq

/-- An HTTP error raised via `HTTPException(status_code, detail)`. -/
structure HTTPError where
  status_code : Nat
  detail : String
deriving DecidableEq

/-- Python `round(x, 2)`: round to the nearest multiple of 1/100.  (Python
rounds half to even on floats; at the granularity relevant here — the result
is an integer number of hundredths — the tie-breaking rule is immaterial.) -/
def round2 (x : ℚ) : ℚ := (round (100 * x) : ℤ) / 100

/-- The 503 detail message of `_predict_single` (`app.py` lines 117-120):
`f"Model not found at \x7bMODEL_PATH\x7d. Run 'python train_model.py' first."`. -/
def modelNotFoundDetail : String :=
  "Model not found at " ++ MODEL_PATH ++ ". Run \x27python train_model.py\x27 first."

/-- `_predict_single(rookie)` from `app.py` (lines 114-130): raises
`HTTPException(503, ...)` when no model is loaded; otherwise builds the
single-row feature table, applies the model, rounds to 2 decimal places, and
pairs the result with the record's display name and position. -/
def predict_single (model : Option Model) (rookie : RookieInput) :
    Except HTTPError PredictionOutput :=
  match model with
  | none => .error ⟨503, modelNotFoundDetail⟩
  | some m => .ok ⟨rookie.player_name, rookie.position, round2 (m (rookieRow rookie))⟩

/-- `POST /predict` handler (`app.py` lines 143-146). -/
def predict (model : Option Model) (rookie : RookieInput) :
    Except HTTPError PredictionOutput :=
  predict_single model rookie

/-- `POST /predict/batch` handler (`app.py` lines 149-152):
`[_predict_single(r) for r in rookies]`; the first raised `HTTPException`
aborts the whole request. -/
def predict_batch (model : Option Model) (rookies : List RookieInput) :
    Except HTTPError (List PredictionOutput) :=
  rookies.mapM (predict_single model)

/-- `joblib.load(MODEL_PATH)` (`app.py` line 109): the filesystem state is
embedded as `Option Model` (the artifact at `MODEL_PATH`, when present);
loading an absent file raises `FileNotFoundError`. -/
def joblibLoad (artifactOnDisk : Option Model) : Except String Model :=
  match artifactOnDisk with
  | some m => .ok m
  | none => .error "FileNotFoundError"

/-- The module-level startup load (`app.py` lines 108-111), executed exactly
once when the process starts: `try: model = joblib.load(MODEL_PATH) except
FileNotFoundError: model = None`. -/
def startupModel (artifactOnDisk : Option Model) : Option Model :=
  match joblibLoad artifactOnDisk with
  | .ok m => some m
  | .error _ => none

/-- The body of the `GET /` health response (`app.py` lines 135-140). -/
structure HealthResponse where
  status : String
  model_loaded : Bool
deriving DecidableEq

/-- `health_check()` from `app.py` (lines 135-140): a plain return, so FastAPI
answers HTTP 200; it never raises. -/
def health_check (model : Option Model) : Except HTTPError HealthResponse :=
  .ok ⟨"ok", model.isSome⟩

/-- The literal example record documented in the `RookieInput` schema
(`app.py` lines 61-90, `json_schema_extra`). -/
def exampleRookie : RookieInput :=
  ⟨"Cam Ward", "QB", "TEN", "ACC", "Miami (FL)", 2024,
   36, 4313, 7, 3, 152, 0, 0, 0, 2, 493, 328, 66.5, 8.7, 89, 1.7, 25, 0, 0, 4, 8⟩

/-- The pydantic validation semantics of the `RookieInput` class declaration
(`app.py` lines 32-59): the six required fields (`player_name`, `position`,
`team`, `C_conference`, `C_team`, `C_season`) must be supplied; every other
(college-statistic) field takes the supplied value when the request carries
one and its declared default otherwise — `0.0` for each statistic except
`C_conference_strength`, whose default is `5.0`. -/
def mkRookieInput (player_name position team C_conference C_team : String)
    (C_season : ℚ) (supplied : String → Option ℚ) : RookieInput :=
  ⟨player_name, position, team, C_conference, C_team, C_season,
   (supplied "C_passing_TD").getD 0,
   (supplied "C_passing_YDS").getD 0,
   (supplied "C_passing_INT").getD 0,
   (supplied "C_rushing_TD").getD 0,
   (supplied "C_rushing_YDS").getD 0,
   (supplied "C_receiving_REC").getD 0,
   (supplied "C_receiving_TD").getD 0,
   (supplied "C_receiving_YDS").getD 0,
   (supplied "C_fumbles_LOST").getD 0,
   (supplied "C_passing_ATT").getD 0,
   (supplied "C_passing_COMPLETIONS").getD 0,
   (supplied "C_passing_PCT").getD 0,
   (supplied "C_passing_YPA").getD 0,
   (supplied "C_rushing_CAR").getD 0,
   (supplied "C_rushing_YPC").getD 0,
   (supplied "C_rushing_LONG").getD 0,
   (supplied "C_receiving_YPR").getD 0,
   (supplied "C_receiving_LONG").getD 0,
   (supplied "C_fumbles_FUM").getD 0,
   (supplied "C_conference_strength").getD 5⟩

/-- The optional college-statistic fields of `RookieInput` with their
declared defaults, read off the class declaration (`app.py` lines 40-59). -/
def statDefaults : List (String × ℚ) :=
  [("C_passing_TD", 0), ("C_passing_YDS", 0), ("C_passing_INT", 0),
   ("C_rushing_TD", 0), ("C_rushing_YDS", 0), ("C_receiving_REC", 0),
   ("C_receiving_TD", 0), ("C_receiving_YDS", 0), ("C_fumbles_LOST", 0),
   ("C_passing_ATT", 0), ("C_passing_COMPLETIONS", 0), ("C_passing_PCT", 0),
   ("C_passing_YPA", 0), ("C_rushing_CAR", 0), ("C_rushing_YPC", 0),
   ("C_rushing_LONG", 0), ("C_receiving_YPR", 0), ("C_receiving_LONG", 0),
   ("C_fumbles_FUM", 0), ("C_conference_strength", 5)]

end App

namespace Train

/-- Python `s.startswith(p)`, embedded over the character lists of the two
strings (extensionally the library's string-level prefix test, stated this
way so that it computes by kernel reduction). -/
def strStartsWith (s p : String) : Bool := p.data.isPrefixOf s.data

/-- `TARGET = "R_fantasy_points_halfppr_tep"` from `train_model.py` line 27. -/
def TARGET : String := "R_fantasy_points_halfppr_tep"

/-- `CATEGORICAL_COLS` from `train_model.py` line 29. -/
def CATEGORICAL_COLS : List String := ["position", "team", "C_conference", "C_team"]

/-- `COLUMNS_TO_DROP` from `train_model.py` (lines 31-34): the seven
identifier / draft-metadata columns. -/
def COLUMNS_TO_DROP : List String :=
  ["player_name", "player_id_x", "player_id_y",
   "draft_year", "draft_round", "draft_pick_overall", "age_on_draft_day"]

/-- `load_and_prepare_data` from `train_model.py` (lines 37-51), at the level
of the table's column header (the data values play no role in the claims):
keep every column that does not start with `R_`, except the target, which is
kept; `df.drop(columns=COLUMNS_TO_DROP)` raises a `KeyError` unless every
listed column is present; `df.drop(columns=[TARGET])` / `df[TARGET]` raise a
`KeyError` unless the target is present.  Returns the column list of `X` and
the name of the column `y` is read from. -/
def load_and_prepare_data (header : List String) :
    Except String (List String × String) :=
  let columns_to_keep :=
    header.filter (fun col => !(strStartsWith col "R_") || col == TARGET)
  if ∀ c ∈ COLUMNS_TO_DROP, c ∈ columns_to_keep then
    let remaining := columns_to_keep.filter (fun c => decide (c ∉ COLUMNS_TO_DROP))
    if TARGET ∈ remaining then
      .ok (remaining.filter (fun c => decide (c ≠ TARGET)), TARGET)
    else .error "KeyError"
  else .error "KeyError"

/-- The numeric-column derivation in `main` (`train_model.py` line 74):
`numeric_cols = [col for col in X.columns if col not in CATEGORICAL_COLS]`. -/
def numeric_cols_of (Xcols : List String) : List String :=
  Xcols.filter (fun c => decide (c ∉ CATEGORICAL_COLS))

/-- Configuration of `OneHotEncoder(drop="first", handle_unknown="ignore")`
(`train_model.py` line 59). -/
structure OneHotEncoderConfig where
  drop_first : Bool
  handle_unknown_ignore : Bool
deriving DecidableEq

/-- Configuration of `RandomForestRegressor(n_estimators=200, random_state=42)`
(`train_model.py` line 65). -/
structure RandomForestConfig where
  n_estimators : Nat
  random_state : Option Nat
deriving DecidableEq

/-- Configuration of the `ColumnTransformer` (`train_model.py` lines 56-61):
scale the numeric columns, one-hot encode the categorical columns.  The
transformer selects columns from the input table by NAME, so its fitted
column lists are what inference consumes. -/
structure ColumnTransformerConfig where
  num_cols : List String
  cat_cols : List String
  encoder : OneHotEncoderConfig
deriving DecidableEq

/-- Configuration of the full pipeline built by `build_pipeline`. -/
structure PipelineConfig where
  preprocessor : ColumnTransformerConfig
  regressor : RandomForestConfig
deriving DecidableEq

/-- `build_pipeline(numeric_cols)` from `train_model.py` (lines 54-67). -/
def build_pipeline (numeric_cols : List String) : PipelineConfig :=
  ⟨⟨numeric_cols, CATEGORICAL_COLS, ⟨true, true⟩⟩, ⟨200, some 42⟩⟩

/-- Modelled from the spec: the transform of one value through a fitted
sklearn `OneHotEncoder(drop="first", handle_unknown="ignore")` column (the
encoder itself is library code, not in the repository).  `categories` is the
fitted vocabulary of the column; the first category level is dropped and each
remaining level becomes an indicator; a value outside the vocabulary maps to
the all-zero indicator vector instead of raising. -/
def oneHotEncodeValue (categories : List String) (v : String) : List ℚ :=
  (categories.drop 1).map (fun c => if c = v then 1 else 0)

/-- Modelled from the spec: the fitted state of the preprocessing
`ColumnTransformer` — per numeric column the fitted mean and scale of the
`StandardScaler`, per categorical column the fitted category vocabulary of
the `OneHotEncoder`. -/
structure FittedPreprocessor where
  num_stats : List (String × ℚ × ℚ)
  cat_categories : List (String × List String)

/-- Name-keyed lookup in a single-row table (a pandas `DataFrame` row keeps
named columns; the fitted transformer selects them by name). -/
def lookupCol (row : List (String × App.FieldVal)) (c : String) : Option App.FieldVal :=
  (row.find? (fun p => p.1 == c)).map Prod.snd

/-- The numeric value of a named column of the row (0 when absent or
non-numeric; the claims only use it on well-formed rows). -/
def numValue (row : List (String × App.FieldVal)) (c : String) : ℚ :=
  match lookupCol row c with
  | some (.n x) => x
  | _ => 0

/-- The string value of a named column of the row. -/
def catValue (row : List (String × App.FieldVal)) (c : String) : String :=
  match lookupCol row c with
  | some (.s s) => s
  | _ => ""

/-- Modelled from the spec: applying the fitted `ColumnTransformer` to one
named row — standardize each numeric column with the fitted statistics, then
one-hot encode each categorical column with the fitted vocabulary. -/
def transformRow (pre : FittedPreprocessor) (row : List (String × App.FieldVal)) :
    List ℚ :=
  pre.num_stats.map (fun p => (numValue row p.1 - p.2.1) / p.2.2)
    ++ (pre.cat_categories.map (fun p => oneHotEncodeValue p.2 (catValue row p.1))).flatten

/-- Modelled from the spec: a fitted pipeline artifact — the fitted
preprocessor plus the fitted regressor (as a total function on the
transformed numeric vector). -/
structure FittedPipeline where
  pre : FittedPreprocessor
  regress : List ℚ → ℚ

/-- A fitted pipeline, as the serving layer consumes it: `model.predict` on a
named single-row table is the regressor applied to the transformed row. -/
def pipelineModel (fp : FittedPipeline) : App.Model :=
  fun row => fp.regress (transformRow fp.pre row)

/-- Modelled from the spec: one step of the deterministic pseudo-random
number generator driving the bootstrap resampling (sklearn library code; the
spec only requires that it be a pure function of the seed). -/
def lcgNext (s : Nat) : Nat := (1103515245 * s + 12345) % 2147483648

/-- The first `count` states of the generator after `seed`. -/
def lcgStream (seed : Nat) : Nat → List Nat
  | 0 => []
  | k + 1 => lcgNext (seed + k) :: lcgStream seed k

/-- Modelled from the spec: a bootstrap resample of the training rows —
`rows.length` draws with replacement, driven by the seed. -/
def bootstrapSample {α : Type} (seed : Nat) (rows : List α) : List α :=
  (lcgStream seed rows.length).filterMap (fun r => rows.get? (r % rows.length))

/-- Modelled from the spec: fitting the `RandomForestRegressor` — an ensemble
of `n_estimators` regression trees, each fit (by the library's deterministic
tree-induction `fitTree`) on a bootstrap resample of the training rows; the
resampling seed comes from `random_state` when it is set and from ambient
process entropy otherwise. -/
def fitForest {Tree : Type} (fitTree : List (List ℚ × ℚ) → Tree) (entropy : Nat)
    (cfg : RandomForestConfig) (data : List (List ℚ × ℚ)) : List Tree :=
  let seed := cfg.random_state.getD entropy
  (List.range cfg.n_estimators).map (fun i => fitTree (bootstrapSample (seed + i) data))

/-- Modelled from the spec: forest prediction is the mean of the trees'
outputs. -/
def forestPredict {Tree : Type} (treePredict : Tree → List ℚ → ℚ)
    (trees : List Tree) (x : List ℚ) : ℚ :=
  (trees.map (fun t => treePredict t x)).sum / trees.length

/-- Modelled from the spec: the column header of `data/processed/df_master.csv`,
which is data, not code, and is not in the repository.  Per §3/§4.2 of the
spec the master table joins the identifier and draft-metadata columns, the
four categorical and twenty-one numeric college feature columns, and the
`R_`-prefixed rookie-outcome columns, among them the target. -/
def canonicalMasterHeader : List String :=
  ["player_name", "player_id_x", "player_id_y", "draft_year", "draft_round",
   "draft_pick_overall", "age_on_draft_day",
   "position", "team", "C_conference", "C_team",
   "C_season", "C_passing_TD", "C_passing_YDS", "C_passing_INT",
   "C_rushing_TD", "C_rushing_YDS", "C_receiving_REC", "C_receiving_TD",
   "C_receiving_YDS", "C_fumbles_LOST", "C_passing_ATT", "C_passing_COMPLETIONS",
   "C_passing_PCT", "C_passing_YPA", "C_rushing_CAR", "C_rushing_YPC",
   "C_rushing_LONG", "C_receiving_YPR", "C_receiving_LONG", "C_fumbles_FUM",
   "C_conference_strength",
   "R_games", "R_rushing_TD", "R_receiving_REC", "R_fantasy_points_ppr",
   "R_fantasy_points_halfppr_tep"]

end Train

/-! ## Shared helper lemmas -/

/-- With a loaded model, `_predict_single` never raises: it returns the
rounded model output paired with the record's display name and position. -/
theorem predict_single_some_eq (m : App.Model) (r : App.RookieInput) :
    App.predict_single (some m) r =
      .ok ⟨r.player_name, r.position, App.round2 (m (App.rookieRow r))⟩ := rfl

/-- `mapM` over `Except` of a function that always succeeds succeeds with the
pointwise map. -/
theorem mapM_ok_of_forall_ok {ε α β : Type} (f : α → Except ε β) (g : α → β)
    (hf : ∀ a, f a = .ok (g a)) (l : List α) : l.mapM f = .ok (l.map g) := by
  induction l with
  | nil => rfl
  | cons x xs ih =>
    rw [List.mapM_cons, hf x, ih]
    rfl


/-! ## Claim theorems -/

/-- C1: for every input record and a loaded model, `_predict_single` returns
the model's scalar output rounded to exactly 2 decimal places (an integer
number of hundredths — a finite rational), paired with exactly the record's
display name (`player_name`) and position. -/
theorem predict_single_rounded_and_labelled (m : App.Model) (r : App.RookieInput) :
    ∃ q : ℤ,
      App.predict_single (some m) r =
        .ok ⟨r.player_name, r.position, App.round2 (m (App.rookieRow r))⟩ ∧
      App.round2 (m (App.rookieRow r)) = (q : ℚ) / 100 :=
  ⟨round ((100 : ℚ) * m (App.rookieRow r)), rfl, rfl⟩

/-- C10: the display name is not a feature column, so two records differing
only in `player_name` produce the same feature row and the same rounded
prediction; each result echoes its own record's name. -/
theorem prediction_ignores_player_name (m : App.Model) (r : App.RookieInput)
    (n : String) :
    "player_name" ∉ App.ALL_FEATURE_COLS ∧
    App.rookieRow { r with player_name := n } = App.rookieRow r ∧
    App.predict_single (some m) { r with player_name := n } =
      .ok ⟨n, r.position, App.round2 (m (App.rookieRow r))⟩ ∧
    App.predict_single (some m) r =
      .ok ⟨r.player_name, r.position, App.round2 (m (App.rookieRow r))⟩ :=
  ⟨by decide, rfl, rfl, rfl⟩

/-- C5: with a loaded model, `predict_batch` on N records returns exactly N
results, the i-th being `_predict_single` of the i-th input record. -/
theorem predict_batch_pointwise (m : App.Model) (rs : List App.RookieInput) :
    App.predict_batch (some m) rs =
      .ok (rs.map (fun r =>
        (⟨r.player_name, r.position, App.round2 (m (App.rookieRow r))⟩ :
          App.PredictionOutput))) ∧
    (rs.map (fun r =>
      (⟨r.player_name, r.position, App.round2 (m (App.rookieRow r))⟩ :
        App.PredictionOutput))).length = rs.length ∧
    ∀ r, App.predict_single (some m) r =
      .ok ⟨r.player_name, r.position, App.round2 (m (App.rookieRow r))⟩ := by
  refine ⟨?_, List.length_map _ _, fun r => rfl⟩
  exact mapM_ok_of_forall_ok _ _ (fun r => rfl) rs

/-- C6: the startup load never escapes as an exception (an absent artifact
leaves the process in the no-model state), and the health check always
answers HTTP 200 with `status = "ok"` and `model_loaded` true exactly when
the artifact was present and loaded. -/
theorem health_check_reports_model_state (artifactOnDisk : Option App.Model) :
    App.startupModel artifactOnDisk = artifactOnDisk ∧
    App.health_check (App.startupModel artifactOnDisk) =
      .ok ⟨"ok", artifactOnDisk.isSome⟩ := by
  cases artifactOnDisk <;> exact ⟨rfl, rfl⟩

/-- C3 counterexample: with no model loaded, the batch endpoint applied to
the empty list of records returns HTTP 200 with an empty result list, not a
503 error — the claim fails for the empty list. -/
theorem predict_batch_empty_without_model_ok :
    App.predict_batch (none : Option App.Model) ([] : List App.RookieInput) =
      .ok [] := rfl

/-- C3 (amended): with no model loaded, the single-record operation for every
record, and the batch operation for every NONEMPTY list of records, return a
503 error whose detail message names the expected artifact path
(`models/model.joblib`) and the remediation action (`python train_model.py`). -/
theorem no_model_yields_503 (r : App.RookieInput) (rs : List App.RookieInput)
    (hne : rs ≠ []) :
    App.predict_single none r = .error ⟨503, App.modelNotFoundDetail⟩ ∧
    App.predict_batch none rs = .error ⟨503, App.modelNotFoundDetail⟩ ∧
    (∃ a b : String, App.modelNotFoundDetail = a ++ App.MODEL_PATH ++ b) ∧
    (∃ a b : String,
      App.modelNotFoundDetail = a ++ "python train_model.py" ++ b) := by
  refine ⟨rfl, ?_, ⟨"Model not found at ",
      ". Run \x27python train_model.py\x27 first.", rfl⟩,
    ⟨"Model not found at models/model.joblib. Run \x27", "\x27 first.", by decide⟩⟩
  cases rs with
  | nil => exact absurd rfl hne
  | cons x xs => rfl

/-- C3 witness: the amended statement at the example record and a one-element
batch. -/
theorem no_model_yields_503_witness :
    App.predict_single none App.exampleRookie =
      .error ⟨503, App.modelNotFoundDetail⟩ ∧
    App.predict_batch none [App.exampleRookie] =
      .error ⟨503, App.modelNotFoundDetail⟩ :=
  ⟨(no_model_yields_503 App.exampleRookie [App.exampleRookie] (by simp)).1,
   (no_model_yields_503 App.exampleRookie [App.exampleRookie] (by simp)).2.1⟩


/-- C2: the serving contract is 4 categorical plus 21 numeric column names
concatenated in a fixed order; the training script's categorical list is
the identical constant, and on the master table (header modelled from the
spec) the prepared feature columns, the derived numeric columns, and the
column lists handed to the fitted transformer reproduce exactly the same
names in the same order as the serving constant. -/
theorem feature_contract_agrees :
    App.CATEGORICAL_COLS.length = 4 ∧
    App.NUMERIC_COLS.length = 21 ∧
    App.ALL_FEATURE_COLS = App.CATEGORICAL_COLS ++ App.NUMERIC_COLS ∧
    Train.CATEGORICAL_COLS = App.CATEGORICAL_COLS ∧
    Train.load_and_prepare_data Train.canonicalMasterHeader =
      .ok (App.ALL_FEATURE_COLS, Train.TARGET) ∧
    Train.numeric_cols_of App.ALL_FEATURE_COLS = App.NUMERIC_COLS ∧
    (Train.build_pipeline
        (Train.numeric_cols_of App.ALL_FEATURE_COLS)).preprocessor.cat_cols ++
      (Train.build_pipeline
        (Train.numeric_cols_of App.ALL_FEATURE_COLS)).preprocessor.num_cols =
      App.ALL_FEATURE_COLS :=
  ⟨rfl, rfl, rfl, rfl, by rfl, by rfl, by rfl⟩


/-- C4: on any table whose header contains the seven identifier/metadata
columns and the target, `load_and_prepare_data` succeeds, `y` reads the
target column, and `X` consists of exactly the columns that do not carry the
rookie-outcome prefix `R_`, are not among the seven dropped
identifier/metadata columns, and are not the target; in particular none of
the dropped columns and not the target appears in `X`. -/
theorem load_and_prepare_data_spec (header : List String)
    (hdrop : ∀ c ∈ Train.COLUMNS_TO_DROP, c ∈ header)
    (htgt : Train.TARGET ∈ header) :
    ∃ X, Train.load_and_prepare_data header = .ok (X, Train.TARGET) ∧
      (∀ c, c ∈ X ↔ c ∈ header ∧ Train.strStartsWith c "R_" = false ∧
        c ∉ Train.COLUMNS_TO_DROP ∧ c ≠ Train.TARGET) ∧
      (∀ c ∈ Train.COLUMNS_TO_DROP, c ∉ X) ∧
      Train.TARGET ∉ X := by
  have h1 : ∀ c ∈ Train.COLUMNS_TO_DROP,
      c ∈ header.filter
        (fun col => !(Train.strStartsWith col "R_") || col == Train.TARGET) := by
    intro c hc
    rw [List.mem_filter]
    refine ⟨hdrop c hc, ?_⟩
    fin_cases hc <;> decide
  have h2 : Train.TARGET ∈
      (header.filter
        (fun col => !(Train.strStartsWith col "R_") || col == Train.TARGET)).filter
        (fun c => decide (c ∉ Train.COLUMNS_TO_DROP)) := by
    rw [List.mem_filter, List.mem_filter]
    exact ⟨⟨htgt, by decide⟩, by decide⟩
  refine ⟨((header.filter
      (fun col => !(Train.strStartsWith col "R_") || col == Train.TARGET)).filter
      (fun c => decide (c ∉ Train.COLUMNS_TO_DROP))).filter
      (fun c => decide (c ≠ Train.TARGET)), ?_, ?_, ?_, ?_⟩
  · simp only [Train.load_and_prepare_data]
    rw [if_pos h1, if_pos h2]
  · intro c
    simp only [List.mem_filter, decide_eq_true_eq, Bool.or_eq_true,
      Bool.not_eq_true', beq_iff_eq]
    constructor
    · rintro ⟨⟨⟨hmem, hor⟩, hnd⟩, hnt⟩
      rcases hor with h | h
      · exact ⟨hmem, h, hnd, hnt⟩
      · exact absurd h hnt
    · rintro ⟨hmem, hns, hnd, hnt⟩
      exact ⟨⟨⟨hmem, Or.inl hns⟩, hnd⟩, hnt⟩
  · intro c hc hcX
    have hnd := (List.mem_filter.mp (List.mem_filter.mp hcX).1).2
    simp only [decide_eq_true_eq] at hnd
    exact hnd hc
  · intro hX
    have hnt := (List.mem_filter.mp hX).2
    simp only [decide_eq_true_eq] at hnt
    exact hnt rfl

/-- C4 witness: the data-preparation characterization at the modelled master
header. -/
theorem load_and_prepare_data_spec_witness :
    ∃ X, Train.load_and_prepare_data Train.canonicalMasterHeader =
        .ok (X, Train.TARGET) ∧
      (∀ c ∈ Train.COLUMNS_TO_DROP, c ∉ X) ∧ Train.TARGET ∉ X := by
  obtain ⟨X, hok, _, hnd, hnt⟩ :=
    load_and_prepare_data_spec Train.canonicalMasterHeader (by decide) (by decide)
  exact ⟨X, hok, hnd, hnt⟩


/-- C7: a categorical value outside the fitted vocabulary is encoded as the
all-zero indicator vector (one indicator per non-dropped category level)
rather than raising, and serving a fitted pipeline never errors on any input
record with a loaded model: it always produces a numeric prediction. -/
theorem unseen_category_zero_and_total (categories : List String) (v : String)
    (hv : v ∉ categories) :
    Train.oneHotEncodeValue categories v =
      List.replicate (categories.length - 1) 0 ∧
    ∀ (fp : Train.FittedPipeline) (r : App.RookieInput),
      App.predict_single (some (Train.pipelineModel fp)) r =
        .ok ⟨r.player_name, r.position,
          App.round2 (Train.pipelineModel fp (App.rookieRow r))⟩ := by
  constructor
  · unfold Train.oneHotEncodeValue
    rw [List.eq_replicate_iff]
    constructor
    · rw [List.length_map, List.length_drop]
    · intro b hb
      rw [List.mem_map] at hb
      obtain ⟨c, hc, rfl⟩ := hb
      have hcm : c ∈ categories := List.mem_of_mem_drop hc
      rw [if_neg]
      intro h
      exact hv (h ▸ hcm)
  · intro fp r
    rfl

/-- C7 witness: a conference value never fitted encodes to the zero vector. -/
theorem unseen_category_zero_and_total_witness :
    Train.oneHotEncodeValue ["ACC", "SEC", "Big 12"] "XFL" =
      List.replicate 2 0 :=
  (unseen_category_zero_and_total ["ACC", "SEC", "Big 12"] "XFL" (by decide)).1

/-- C9: the regression stage is configured as an ensemble of 200 trees with
the fixed random seed 42, each tree fit on a bootstrap resample; because the
seed is fixed rather than drawn from process entropy, two training runs on
the identical dataset produce identical forests and hence identical
predictions for the same inputs. -/
theorem forest_seed_determinism (Tree : Type)
    (fitTree : List (List ℚ × ℚ) → Tree) (treePredict : Tree → List ℚ → ℚ)
    (numeric_cols : List String) (entropy1 entropy2 : Nat)
    (data : List (List ℚ × ℚ)) (x : List ℚ) :
    (Train.build_pipeline numeric_cols).regressor.n_estimators = 200 ∧
    (Train.build_pipeline numeric_cols).regressor.random_state = some 42 ∧
    (Train.fitForest fitTree entropy1
        (Train.build_pipeline numeric_cols).regressor data).length = 200 ∧
    Train.fitForest fitTree entropy1
        (Train.build_pipeline numeric_cols).regressor data =
      Train.fitForest fitTree entropy2
        (Train.build_pipeline numeric_cols).regressor data ∧
    Train.forestPredict treePredict
        (Train.fitForest fitTree entropy1
          (Train.build_pipeline numeric_cols).regressor data) x =
      Train.forestPredict treePredict
        (Train.fitForest fitTree entropy2
          (Train.build_pipeline numeric_cols).regressor data) x := by
  refine ⟨rfl, rfl, ?_, rfl, rfl⟩
  simp [Train.fitForest, Train.build_pipeline]

/-- C8: the request schema's optional fields are exactly the twenty college
statistics; each is documented with default 0.0 except
`C_conference_strength`, whose default is 5.0, and a request omitting such a
field is accepted and validates to the record carrying the default value. -/
theorem rookie_input_defaults :
    (∀ p ∈ App.statDefaults,
      p.2 = if p.1 = "C_conference_strength" then (5 : ℚ) else 0) ∧
    App.statDefaults.length = 20 ∧
    ∀ (pn pos tm conf ct : String) (season : ℚ)
      (supplied : String → Option ℚ) (f : String) (d : ℚ),
      (f, d) ∈ App.statDefaults → supplied f = none →
      App.getattr (App.mkRookieInput pn pos tm conf ct season supplied) f =
        some (.n d) := by
  refine ⟨by decide, rfl, ?_⟩
  intro pn pos tm conf ct season supplied f d hmem hnone
  fin_cases hmem <;>
  simp only [App.mkRookieInput, App.getattr, hnone, Option.getD_none]

/-- C8 witness: a request supplying only the required fields validates with
`C_conference_strength = 5` and `C_passing_TD = 0`. -/
theorem rookie_input_defaults_witness :
    App.getattr
        (App.mkRookieInput "Cam Ward" "QB" "TEN" "ACC" "Miami (FL)" 2024
          (fun _ => none)) "C_conference_strength" = some (.n 5) ∧
    App.getattr
        (App.mkRookieInput "Cam Ward" "QB" "TEN" "ACC" "Miami (FL)" 2024
          (fun _ => none)) "C_passing_TD" = some (.n 0) :=
  ⟨rookie_input_defaults.2.2 "Cam Ward" "QB" "TEN" "ACC" "Miami (FL)" 2024
      (fun _ => none) "C_conference_strength" 5 (by decide) rfl,
   rookie_input_defaults.2.2 "Cam Ward" "QB" "TEN" "ACC" "Miami (FL)" 2024
      (fun _ => none) "C_passing_TD" 0 (by decide) rfl⟩

